import Mathlib

/-!
Verification of the physics orchestration layer of the 3D-controller
repository: the character locomotion controller (calculateMovementDirection,
applyMovement, checkGrounded from the character module) and the physics
module (updatePhysics, applyBuoyancy, createCollider from physics.js).
JavaScript numbers are modelled as real numbers; the external Rapier world
is modelled semantically where the code under verification calls into it
(ray casts, impulse application).
-/

namespace Controller3D

/-- Three-component vector, the shape of THREE.Vector3 and of the plain
vector records the code builds. Components are real numbers. -/
structure Vec3 where
  x : ℝ
  y : ℝ
  z : ℝ

/-- Per-frame input snapshot, the fields of the inputState object the input
module maintains and the character module reads. -/
structure InputState where
  forward : Bool
  backward : Bool
  left : Bool
  right : Bool
  jump : Bool
  mouseX : ℝ

noncomputable section

/-- Character constant MOVE_SPEED from the character module. -/
def MOVE_SPEED : ℝ := 5

/-- Character constant JUMP_FORCE from the character module. -/
def JUMP_FORCE : ℝ := 10

/-- Character constant GROUND_CHECK_DISTANCE from the character module. -/
def GROUND_CHECK_DISTANCE : ℝ := 1 / 10

/-- Character constant CHARACTER_HEIGHT from the character module. -/
def CHARACTER_HEIGHT : ℝ := 2

/-- Character constant CHARACTER_RADIUS from the character module. -/
def CHARACTER_RADIUS : ℝ := 1 / 2

/-- Physics constant WATER_LEVEL from physics.js (water surface at y = 0). -/
def WATER_LEVEL : ℝ := 0

/-- Physics constant BUOYANCY_FORCE from physics.js. -/
def BUOYANCY_FORCE : ℝ := 20

/-- Physics constant WATER_DRAG from physics.js. -/
def WATER_DRAG : ℝ := 2

/-- Length of a THREE.Vector3: the euclidean norm, as computed by the
three.js length() method. -/
def Vec3.length (v : Vec3) : ℝ :=
  Real.sqrt (v.x ^ 2 + v.y ^ 2 + v.z ^ 2)

/-- Normalization of a THREE.Vector3: three.js normalize() divides by the
length when it is nonzero and by 1 otherwise (divideScalar of length or 1). -/
def Vec3.normalize (v : Vec3) : Vec3 :=
  let l := if v.length = 0 then 1 else v.length
  ⟨v.x / l, v.y / l, v.z / l⟩

/-- Rotation of a vector about the world Y axis by angle theta: this is what
THREE.Vector3.applyEuler computes for the character rotation Euler
(0, theta, 0, YXZ order), whose x and z components are set to 0 at creation
and never written afterwards (updateRotation only writes rotation.y). -/
def applyEulerY (theta : ℝ) (v : Vec3) : Vec3 :=
  ⟨v.x * Real.cos theta + v.z * Real.sin theta,
   v.y,
   -v.x * Real.sin theta + v.z * Real.cos theta⟩

/-- Raw movement direction before normalization and rotation: the first
block of calculateMovementDirection in the character module. The direction
is reset to (0,0,0), then each active intent assigns its component:
forward writes z = -1, backward writes z = 1, left writes x = -1, right
writes x = 1. The writes are plain assignments in source order, so when
both intents of an axis are active the later assignment (backward, right)
overwrites the earlier one. -/
def rawDirection (input : InputState) : Vec3 :=
  let d : Vec3 := ⟨0, 0, 0⟩
  let d := if input.forward then { d with z := -1 } else d
  let d := if input.backward then { d with z := 1 } else d
  let d := if input.left then { d with x := -1 } else d
  let d := if input.right then { d with x := 1 } else d
  d

/-- Full calculateMovementDirection from the character module: build the raw
direction from the four intents, renormalize when its length exceeds 1
(diagonal movement), then rotate it by the character rotation (applyEuler on
the Euler whose only nonzero component is the yaw, see applyEulerY). -/
def calculateMovementDirection (yaw : ℝ) (input : InputState) : Vec3 :=
  let d := rawDirection input
  let d := if 1 < d.length then d.normalize else d
  applyEulerY yaw d

/-- The applyMovement function from the character module, as the velocity
command it passes to rigidBody.setLinvel: horizontal components are
direction times MOVE_SPEED, the vertical component preserves the current
vertical velocity read from rigidBody.linvel(), and is overridden to
JUMP_FORCE when the jump intent is active while the character is grounded. -/
def applyMovement (direction : Vec3) (isGrounded : Bool) (input : InputState)
    (velocity : Vec3) : Vec3 :=
  let movementForce : Vec3 := ⟨direction.x * MOVE_SPEED, velocity.y, direction.z * MOVE_SPEED⟩
  let movementForce :=
    if input.jump && isGrounded then { movementForce with y := JUMP_FORCE }
    else movementForce
  movementForce

/-- Horizontal speed of a velocity command: the euclidean norm of its XZ
projection. -/
def horizontalSpeed (v : Vec3) : ℝ :=
  Real.sqrt (v.x ^ 2 + v.z ^ 2)

/-- State of a Rapier dynamic rigid body as far as applyBuoyancy touches it:
translation and linear velocity, together with the inverse mass that Rapier
uses when converting an impulse into a velocity change. The impulses field
is a log of every applyImpulse call made on the body, in call order, so that
theorems can speak about which impulses the code applied. -/
structure RigidBodyState where
  position : Vec3
  linvel : Vec3
  invMass : ℝ
  impulses : List Vec3

/-- Rapier applyImpulse on a dynamic rigid body: the impulse takes effect
immediately, adding impulse times inverse mass to the linear velocity (so a
later linvel() read already sees it), and is recorded in the call log. -/
def RigidBodyState.applyImpulse (rb : RigidBodyState) (impulse : Vec3) : RigidBodyState :=
  { rb with
    linvel := ⟨rb.linvel.x + impulse.x * rb.invMass,
               rb.linvel.y + impulse.y * rb.invMass,
               rb.linvel.z + impulse.z * rb.invMass⟩
    impulses := rb.impulses ++ [impulse] }

/-- The applyBuoyancy function from physics.js. It reads the body
translation; when the body is below WATER_LEVEL it applies the upward
buoyancy impulse (0, BUOYANCY_FORCE * submergedDepth, 0), then reads
rigidBody.linvel() — after the buoyancy impulse call, which in Rapier has
already changed the velocity — and applies the drag impulse
-velocity * WATER_DRAG on all three axes. Above water it does nothing. -/
def applyBuoyancy (rb : RigidBodyState) : RigidBodyState :=
  let position := rb.position
  if position.y < WATER_LEVEL then
    let submergedDepth := WATER_LEVEL - position.y
    let upwardForce : Vec3 := ⟨0, BUOYANCY_FORCE * submergedDepth, 0⟩
    let rb := rb.applyImpulse upwardForce
    let velocity := rb.linvel
    let dragForce : Vec3 :=
      ⟨-velocity.x * WATER_DRAG, -velocity.y * WATER_DRAG, -velocity.z * WATER_DRAG⟩
    rb.applyImpulse dragForce
  else rb

/-- Replacement of the element at an index of a list by the image under f,
leaving every other element in place: how a mutation of one rigid body held
by the physics world is reflected in the list of all bodies of the world. -/
def modifyAt (f : RigidBodyState → RigidBodyState) :
    ℕ → List RigidBodyState → List RigidBodyState
  | _, [] => []
  | 0, b :: bs => f b :: bs
  | n + 1, b :: bs => b :: modifyAt f n bs

/-- The updatePhysics function from physics.js over the list of bodies of
the physics world: first the external world.step() (passed in as the opaque
step function, since the solver is an external collaborator), then, only
when a character argument was provided, applyBuoyancy on that character
rigid body (identified by its index in the world). No other body receives
buoyancy. -/
def updatePhysics (step : List RigidBodyState → List RigidBodyState)
    (bodies : List RigidBodyState) (character : Option ℕ) : List RigidBodyState :=
  let bodies := step bodies
  match character with
  | some i => modifyAt applyBuoyancy i bodies
  | none => bodies

/-- Ray as built by checkGrounded for the Rapier ray cast: an origin and a
direction. -/
structure Ray where
  origin : Vec3
  dir : Vec3

/-- One collider hit of a ray cast: the collider handle and the time of
impact along the ray. -/
structure RayHit where
  collider : ℕ
  toi : ℝ

/-- Semantic model of Rapier world.castRay(ray, maxToi, solid): among the
colliders of the world that the ray meets (listed with their time of
impact), return a hit whose time of impact is within maxToi, if any. The
call site in checkGrounded passes no filter argument of any kind, so every
collider of the world participates, the collider of the casting body
included. -/
def worldCastRay (rayHits : List RayHit) (maxToi : ℝ) : Option RayHit :=
  rayHits.find? (fun h => decide (h.toi ≤ maxToi))

/-- The checkGrounded function from the character module: build the ray
origin at the character feet (translation offset down by
CHARACTER_HEIGHT / 2 - CHARACTER_RADIUS), cast it straight down with length
GROUND_CHECK_DISTANCE and solid = true through the world castRay (passed in
as the function the external world exposes), and report whether the cast
returned a hit (hit !== null). -/
def checkGrounded (castRay : Ray → ℝ → Bool → Option RayHit) (position : Vec3) : Bool :=
  let rayOrigin : Vec3 :=
    ⟨position.x, position.y - CHARACTER_HEIGHT / 2 + CHARACTER_RADIUS, position.z⟩
  let rayDirection : Vec3 := ⟨0, -1, 0⟩
  let hit := castRay ⟨rayOrigin, rayDirection⟩ GROUND_CHECK_DISTANCE true
  hit.isSome

/-- Modelled from the spec for C2: the same ground probe but with the cast
restricted to the world minus the collider of the probing body, following
the spec sentence that the ray cast excludes the body own collider. -/
def isGroundedSpec (ownCollider : ℕ) (rayHits : List RayHit) : Bool :=
  (worldCastRay (rayHits.filter (fun h => decide (h.collider ≠ ownCollider)))
    GROUND_CHECK_DISTANCE).isSome

/-- The checkGrounded function again, with the external ray cast allowed to
fail: the JavaScript body holds no try/catch, so an exception thrown by
world.castRay leaves checkGrounded before the hit test and propagates to
the caller. The Except value of the cast is therefore mapped through, never
replaced by a default. -/
def checkGroundedE (castRay : Ray → ℝ → Bool → Except String (Option RayHit))
    (position : Vec3) : Except String Bool :=
  let rayOrigin : Vec3 :=
    ⟨position.x, position.y - CHARACTER_HEIGHT / 2 + CHARACTER_RADIUS, position.z⟩
  let rayDirection : Vec3 := ⟨0, -1, 0⟩
  (castRay ⟨rayOrigin, rayDirection⟩ GROUND_CHECK_DISTANCE true).map Option.isSome

/-- Collider descriptions the physics module can build, one constructor per
RAPIER.ColliderDesc factory that createCollider calls. -/
inductive ColliderDesc where
  | cuboid (hx hy hz : ℝ)
  | ball (radius : ℝ)
  | capsule (halfHeight radius : ℝ)
  | cylinder (halfHeight radius : ℝ)

/-- Size record passed to createCollider; the JavaScript object carries the
fields each shape reads (width, height, depth, radius). -/
structure ColliderSize where
  width : ℝ
  height : ℝ
  depth : ℝ
  radius : ℝ

/-- The switch statement of createCollider in physics.js, producing the
collider description for the four supported shape strings and throwing
(Except.error) with the message Unsupported collider shape for any other
string. -/
def colliderDescFor (shape : String) (size : ColliderSize) : Except String ColliderDesc :=
  if shape = "box" then
    .ok (.cuboid (size.width / 2) (size.height / 2) (size.depth / 2))
  else if shape = "sphere" then
    .ok (.ball size.radius)
  else if shape = "capsule" then
    .ok (.capsule (size.height / 2) size.radius)
  else if shape = "cylinder" then
    .ok (.cylinder (size.height / 2) size.radius)
  else
    .error ("Unsupported collider shape: " ++ shape)

/-- The createCollider function from physics.js over the list of colliders
of the physics world: run the switch; on success attach the new collider to
the world (world.createCollider appends it) and return it, on an
unsupported shape the throw happens before world.createCollider is reached,
so the world is returned unchanged together with the error. -/
def createCollider (world : List ColliderDesc) (shape : String) (size : ColliderSize) :
    List ColliderDesc × Except String ColliderDesc :=
  match colliderDescFor shape size with
  | .ok desc => (world ++ [desc], .ok desc)
  | .error e => (world, .error e)

/-- Modelled from the spec for C3: applyBuoyancy with the impulse order the
spec describes, the velocity for the drag computation being read before the
buoyancy impulse of the same step is applied, so that the drag does not see
the buoyancy write. -/
def applyBuoyancySpecC3 (rb : RigidBodyState) : RigidBodyState :=
  let position := rb.position
  if position.y < WATER_LEVEL then
    let submergedDepth := WATER_LEVEL - position.y
    let upwardForce : Vec3 := ⟨0, BUOYANCY_FORCE * submergedDepth, 0⟩
    let velocity := rb.linvel
    let rb := rb.applyImpulse upwardForce
    let dragForce : Vec3 :=
      ⟨-velocity.x * WATER_DRAG, -velocity.y * WATER_DRAG, -velocity.z * WATER_DRAG⟩
    rb.applyImpulse dragForce
  else rb

/-- Modelled from the spec for C5: after the world step, the buoyancy model
runs for every registered floating body, each independently. -/
def updatePhysicsSpecC5 (step : List RigidBodyState → List RigidBodyState)
    (bodies : List RigidBodyState) : List RigidBodyState :=
  (step bodies).map applyBuoyancy

/-- Submerged character body used to instantiate the C3 theorem: at rest at
y = -1 with inverse mass 1 and an empty impulse log. -/
def rbC3 : RigidBodyState := ⟨⟨0, -1, 0⟩, ⟨0, 0, 0⟩, 1, []⟩

end

/-- C1 counterexample: with forward and backward both active, the raw
direction z component is 1 (the backward assignment overwrites the forward
one), not 0 as the claimed cancellation would give. -/
theorem C1_counterexample :
    (rawDirection ⟨true, true, false, false, false, 0⟩).z = 1 ∧
    (rawDirection ⟨true, true, false, false, false, 0⟩).z ≠ 0 := by
  constructor <;> norm_num [rawDirection]

/-- C1 (amended): the raw direction maps forward to -Z, backward to +Z,
left to -X, right to +X, and stays in the XZ plane; when both opposing
intents of an axis are active the later source assignment wins, so backward
overrides forward (z = 1) and right overrides left (x = 1), rather than the
two cancelling to zero. -/
theorem C1_raw_direction_mapping (i : InputState) :
    (rawDirection i).x = (if i.right then 1 else if i.left then -1 else 0) ∧
    (rawDirection i).y = 0 ∧
    (rawDirection i).z = (if i.backward then 1 else if i.forward then -1 else 0) := by
  rcases i with ⟨f, b, l, r, j, m⟩
  cases f <;> cases b <;> cases l <;> cases r <;> simp [rawDirection]

/-- C4 counterexample: when the world ray cast throws, checkGrounded
propagates the error to its caller instead of reporting the frame as
ungrounded (Except.ok false), because the source has no try/catch. -/
theorem C4_counterexample :
    checkGroundedE (fun _ _ _ => Except.error "ray cast failed") ⟨0, 0, 0⟩ =
      Except.error "ray cast failed" ∧
    checkGroundedE (fun _ _ _ => Except.error "ray cast failed") ⟨0, 0, 0⟩ ≠
      Except.ok false := by
  constructor <;> simp [checkGroundedE, Except.map]

/-- C4 (amended): the ground probe installs no error handling: any failure
of the world ray cast leaves checkGrounded as the same error, aborting the
frame of the caller, for every character position; the water level in
applyBuoyancy is the compile-time constant WATER_LEVEL, so no water-level
query exists that could throw. -/
theorem C4_error_propagation (e : String) (pos : Vec3) :
    checkGroundedE (fun _ _ _ => Except.error e) pos = Except.error e := by
  simp [checkGroundedE, Except.map]

/-- C6 (confirmed): jump input while ungrounded leaves the vertical
component of the velocity command equal to the pre-existing vertical
velocity of the body, and jump input while grounded sets it to exactly
JUMP_FORCE, whatever the current vertical velocity is. -/
theorem C6_jump_gating (direction velocity : Vec3) (i : InputState) :
    (i.jump = true →
      (applyMovement direction false i velocity).y = velocity.y) ∧
    (i.jump = true →
      (applyMovement direction true i velocity).y = JUMP_FORCE) := by
  constructor <;> intro h <;> simp [applyMovement, h]

/-- C10 (confirmed): createCollider succeeds for exactly the shape strings
box, sphere, capsule and cylinder, appending the new collider to the world;
every other shape string yields the Unsupported collider shape error and
returns the physics world unchanged. -/
theorem C10_createCollider_shapes (world : List ColliderDesc) (shape : String)
    (size : ColliderSize) :
    ((shape = "box" ∨ shape = "sphere" ∨ shape = "capsule" ∨ shape = "cylinder") →
      ∃ desc, createCollider world shape size = (world ++ [desc], Except.ok desc)) ∧
    (shape ≠ "box" → shape ≠ "sphere" → shape ≠ "capsule" → shape ≠ "cylinder" →
      createCollider world shape size =
        (world, Except.error ("Unsupported collider shape: " ++ shape))) := by
  constructor
  · rintro (h | h | h | h) <;> subst h
    · exact ⟨ColliderDesc.cuboid (size.width / 2) (size.height / 2) (size.depth / 2),
        by simp [createCollider, colliderDescFor]⟩
    · exact ⟨ColliderDesc.ball size.radius, by simp [createCollider, colliderDescFor]⟩
    · exact ⟨ColliderDesc.capsule (size.height / 2) size.radius,
        by simp [createCollider, colliderDescFor]⟩
    · exact ⟨ColliderDesc.cylinder (size.height / 2) size.radius,
        by simp [createCollider, colliderDescFor]⟩
  · intro h1 h2 h3 h4
    simp [createCollider, colliderDescFor, h1, h2, h3, h4]

/-- C3 counterexample: for a body at rest at y = -1 with inverse mass 1,
the code leaves vertical velocity -20 (the drag was computed from the
velocity 20 already holding this step buoyancy impulse), while computing
the drag from the velocity as it was before the buoyancy write, as the
claim states, would leave 20; the two disagree. -/
theorem C3_counterexample :
    (applyBuoyancy ⟨⟨0, -1, 0⟩, ⟨0, 0, 0⟩, 1, []⟩).linvel.y = -20 ∧
    (applyBuoyancySpecC3 ⟨⟨0, -1, 0⟩, ⟨0, 0, 0⟩, 1, []⟩).linvel.y = 20 ∧
    (applyBuoyancy ⟨⟨0, -1, 0⟩, ⟨0, 0, 0⟩, 1, []⟩).linvel.y ≠
      (applyBuoyancySpecC3 ⟨⟨0, -1, 0⟩, ⟨0, 0, 0⟩, 1, []⟩).linvel.y := by
  norm_num [applyBuoyancy, applyBuoyancySpecC3, RigidBodyState.applyImpulse,
    WATER_LEVEL, BUOYANCY_FORCE, WATER_DRAG]

/-- C3 (amended): for a submerged body the drag impulse is computed from
the velocity as it is after this step buoyancy impulse: rigidBody.linvel()
is read after the buoyancy applyImpulse call, which has already changed the
velocity, so every final velocity component is the post-buoyancy component
scaled by (1 - WATER_DRAG * invMass). -/
theorem C3_drag_uses_post_buoyancy_velocity (rb : RigidBodyState)
    (h : rb.position.y < WATER_LEVEL) :
    (applyBuoyancy rb).linvel.x = rb.linvel.x * (1 - WATER_DRAG * rb.invMass) ∧
    (applyBuoyancy rb).linvel.y =
      (rb.linvel.y + BUOYANCY_FORCE * (WATER_LEVEL - rb.position.y) * rb.invMass) *
        (1 - WATER_DRAG * rb.invMass) ∧
    (applyBuoyancy rb).linvel.z = rb.linvel.z * (1 - WATER_DRAG * rb.invMass) := by
  simp only [applyBuoyancy, RigidBodyState.applyImpulse, if_pos h]
  refine ⟨by ring, by ring, by ring⟩

/-- C3 witness: the amended statement instantiated at the submerged body
rbC3, its hypothesis discharged there. -/
theorem C3_drag_uses_post_buoyancy_velocity_witness :
    rbC3.position.y < WATER_LEVEL ∧
    ((applyBuoyancy rbC3).linvel.x = rbC3.linvel.x * (1 - WATER_DRAG * rbC3.invMass) ∧
     (applyBuoyancy rbC3).linvel.y =
       (rbC3.linvel.y + BUOYANCY_FORCE * (WATER_LEVEL - rbC3.position.y) * rbC3.invMass) *
         (1 - WATER_DRAG * rbC3.invMass) ∧
     (applyBuoyancy rbC3).linvel.z = rbC3.linvel.z * (1 - WATER_DRAG * rbC3.invMass)) :=
  ⟨by norm_num [rbC3, WATER_LEVEL],
   C3_drag_uses_post_buoyancy_velocity rbC3 (by norm_num [rbC3, WATER_LEVEL])⟩

/-- C7 (confirmed): when the submersion depth d = WATER_LEVEL - y is
positive, applyBuoyancy applies the upward impulse (0, BUOYANCY_FORCE * d, 0)
as its first impulse, followed only by the drag impulse; the upward
magnitude is strictly monotone in the depth; when d is not positive the
body is returned unchanged, with no impulse call at all; and for the body
at y = -1 under water level 0 with coefficient 20 the first applied impulse
is exactly (0, 20, 0). -/
theorem C7_buoyancy_impulse (rb : RigidBodyState) :
    (∀ d : ℝ, d = WATER_LEVEL - rb.position.y →
      (0 < d → ∃ drag : Vec3,
        (applyBuoyancy rb).impulses = rb.impulses ++ [⟨0, BUOYANCY_FORCE * d, 0⟩, drag]) ∧
      (d ≤ 0 → applyBuoyancy rb = rb)) ∧
    (∀ d1 d2 : ℝ, 0 < d1 → d1 < d2 → BUOYANCY_FORCE * d1 < BUOYANCY_FORCE * d2) ∧
    (applyBuoyancy ⟨⟨0, -1, 0⟩, ⟨0, 0, 0⟩, 1, []⟩).impulses.head? = some ⟨0, 20, 0⟩ := by
  refine ⟨fun d hd => ⟨fun hpos => ?_, fun hnonpos => ?_⟩, fun d1 d2 h1 h12 => ?_, ?_⟩
  · have hy : rb.position.y < WATER_LEVEL := by
      have : rb.position.y = WATER_LEVEL - d := by rw [hd]; ring
      rw [this]; linarith
    subst hd
    refine ⟨⟨-(rb.linvel.x + 0 * rb.invMass) * WATER_DRAG,
        -(rb.linvel.y + BUOYANCY_FORCE * (WATER_LEVEL - rb.position.y) * rb.invMass) *
          WATER_DRAG,
        -(rb.linvel.z + 0 * rb.invMass) * WATER_DRAG⟩, ?_⟩
    simp [applyBuoyancy, RigidBodyState.applyImpulse, if_pos hy]
  · have hy : ¬ rb.position.y < WATER_LEVEL := by
      have : rb.position.y = WATER_LEVEL - d := by rw [hd]; ring
      rw [this]; linarith
    simp [applyBuoyancy, if_neg hy]
  · have : (0 : ℝ) < BUOYANCY_FORCE := by norm_num [BUOYANCY_FORCE]
    exact mul_lt_mul_of_pos_left h12 this
  · norm_num [applyBuoyancy, RigidBodyState.applyImpulse,
      WATER_LEVEL, BUOYANCY_FORCE, WATER_DRAG]

/-- Helper: modifying one index of the list of bodies leaves the entry at
every other index unchanged. -/
theorem modifyAt_get?_ne (f : RigidBodyState → RigidBodyState) :
    ∀ (i j : ℕ) (l : List RigidBodyState), j ≠ i →
      (modifyAt f i l).get? j = l.get? j := by
  intro i
  induction i with
  | zero =>
    intro j l h
    cases l with
    | nil => simp [modifyAt]
    | cons b bs =>
      cases j with
      | zero => exact absurd rfl h
      | succ j => simp [modifyAt]
  | succ i ih =>
    intro j l h
    cases l with
    | nil => simp [modifyAt]
    | cons b bs =>
      cases j with
      | zero => simp [modifyAt]
      | succ j => simpa [modifyAt] using ih j bs (by omega)

/-- C5 counterexample: with a world of two post-step bodies, the controlled
character at index 0 on the surface and a registered floating sphere at
index 1 submerged at y = -1, updatePhysics leaves the sphere velocity at 0,
whereas running the buoyancy model for every registered floating body, as
the claim states, would set its vertical velocity to -20. -/
theorem C5_counterexample :
    ((updatePhysics id
        [⟨⟨0, 0, 0⟩, ⟨0, 0, 0⟩, 1, []⟩, ⟨⟨5, -1, 0⟩, ⟨0, 0, 0⟩, 1, []⟩]
        (some 0)).get? 1).map (fun rb => rb.linvel.y) = some 0 ∧
    ((updatePhysicsSpecC5 id
        [⟨⟨0, 0, 0⟩, ⟨0, 0, 0⟩, 1, []⟩, ⟨⟨5, -1, 0⟩, ⟨0, 0, 0⟩, 1, []⟩]).get? 1).map
      (fun rb => rb.linvel.y) = some (-20) := by
  constructor
  · norm_num [updatePhysics, modifyAt]
  · norm_num [updatePhysicsSpecC5, applyBuoyancy, RigidBodyState.applyImpulse,
      WATER_LEVEL, BUOYANCY_FORCE, WATER_DRAG]

/-- C5 (amended): on every simulation step the world is stepped first and
the buoyancy model then runs only for the controlled character body when
one was passed: a call without a character applies no buoyancy at all, a
call with the character at index i applies applyBuoyancy to that body
alone, and every body at another index keeps its post-step state. -/
theorem C5_buoyancy_character_only (step : List RigidBodyState → List RigidBodyState)
    (bodies : List RigidBodyState) (i : ℕ) :
    updatePhysics step bodies none = step bodies ∧
    updatePhysics step bodies (some i) = modifyAt applyBuoyancy i (step bodies) ∧
    ∀ j, j ≠ i → (updatePhysics step bodies (some i)).get? j = (step bodies).get? j := by
  refine ⟨rfl, rfl, fun j hj => ?_⟩
  exact modifyAt_get?_ne applyBuoyancy i j (step bodies) hj

/-- C2 counterexample: the call site passes no collider filter, so the own
collider of the body takes part in the cast. In a world whose only reported
hit for the downward ray is the character own collider (handle 7, time of
impact 1/20, within the 1/10 probe — the ray origin lies inside the capsule
and the cast is solid), checkGrounded returns true, while a probe that
excludes the body own collider, as the claim states, returns false. -/
theorem C2_counterexample :
    checkGrounded (fun _ maxToi _ => worldCastRay [⟨7, 1 / 20⟩] maxToi) ⟨0, 0, 0⟩ = true ∧
    isGroundedSpec 7 [⟨7, 1 / 20⟩] = false := by
  constructor
  · simp [checkGrounded, worldCastRay, List.find?, GROUND_CHECK_DISTANCE]
    norm_num
  · simp [isGroundedSpec, worldCastRay, List.find?]

/-- C2 (amended): checkGrounded casts the downward ray of length
GROUND_CHECK_DISTANCE through the whole collision world with no
collider-exclusion filter, and returns true exactly when some collider of
the world — the body own collider included — is hit within that distance;
the probe reads the world and writes nothing. -/
theorem C2_ground_probe (hits : List RayHit) (pos : Vec3) :
    checkGrounded (fun _ maxToi _ => worldCastRay hits maxToi) pos = true ↔
      ∃ h ∈ hits, h.toi ≤ GROUND_CHECK_DISTANCE := by
  simp [checkGrounded, worldCastRay, List.find?_isSome]

/-- Helper: rotation about the Y axis preserves the sum of squares of the
two horizontal components. -/
theorem applyEulerY_sumsq (theta : ℝ) (v : Vec3) :
    (applyEulerY theta v).x ^ 2 + (applyEulerY theta v).z ^ 2 = v.x ^ 2 + v.z ^ 2 := by
  simp only [applyEulerY]
  linear_combination (v.x ^ 2 + v.z ^ 2) * Real.sin_sq_add_cos_sq theta

/-- Helper: the horizontal speed of the velocity command equals MOVE_SPEED
whenever the movement direction has unit horizontal square sum; the jump
branch of applyMovement only touches the vertical component. -/
theorem horizontalSpeed_applyMovement (dir : Vec3) (g : Bool) (i : InputState)
    (vel : Vec3) (h : dir.x ^ 2 + dir.z ^ 2 = 1) :
    horizontalSpeed (applyMovement dir g i vel) = MOVE_SPEED := by
  have hx : (applyMovement dir g i vel).x = dir.x * MOVE_SPEED := by
    simp [applyMovement, apply_ite Vec3.x]
  have hz : (applyMovement dir g i vel).z = dir.z * MOVE_SPEED := by
    simp [applyMovement, apply_ite Vec3.z]
  rw [horizontalSpeed, hx, hz]
  have h25 : (dir.x * MOVE_SPEED) ^ 2 + (dir.z * MOVE_SPEED) ^ 2 = 25 := by
    rw [MOVE_SPEED]; nlinarith [h]
  rw [h25, show (25 : ℝ) = 5 ^ 2 by norm_num,
    Real.sqrt_sq (by norm_num : (0 : ℝ) ≤ 5), MOVE_SPEED]

/-- Helper: the length of a diagonal raw direction, with both horizontal
components of square 1, is the square root of 2. -/
theorem diag_length (a b : ℝ) (ha : a ^ 2 = 1) (hb : b ^ 2 = 1) :
    (Vec3.mk a 0 b).length = Real.sqrt 2 := by
  have hsum : a ^ 2 + (0 : ℝ) ^ 2 + b ^ 2 = 2 := by rw [ha, hb]; norm_num
  simp only [Vec3.length]
  rw [hsum]

/-- Helper: normalization of a diagonal raw direction yields unit
horizontal square sum. -/
theorem normalize_diag_sumsq (a b : ℝ) (ha : a ^ 2 = 1) (hb : b ^ 2 = 1) :
    (Vec3.normalize ⟨a, 0, b⟩).x ^ 2 + (Vec3.normalize ⟨a, 0, b⟩).z ^ 2 = 1 := by
  have h2 : Real.sqrt 2 ≠ 0 := by positivity
  have hs2 : Real.sqrt 2 ^ 2 = 2 := Real.sq_sqrt (by norm_num)
  simp only [Vec3.normalize, diag_length a b ha hb]
  rw [if_neg h2, div_pow, div_pow, hs2, ha, hb]
  norm_num

/-- Helper: the diagonal raw direction has length strictly above 1, so
calculateMovementDirection takes the renormalization branch for it. -/
theorem diag_length_gt_one (a b : ℝ) (ha : a ^ 2 = 1) (hb : b ^ 2 = 1) :
    1 < (Vec3.mk a 0 b).length := by
  rw [diag_length a b ha hb, show (1 : ℝ) = Real.sqrt 1 from Real.sqrt_one.symm]
  exact Real.sqrt_lt_sqrt (by norm_num) (by norm_num)

/-- Helper: the raw direction of a diagonal input, one intent active on
each axis, is the vector with components of magnitude one given by which
intent of each pair is active. -/
theorem rawDirection_diag (fb lr j : Bool) (m : ℝ) :
    rawDirection ⟨fb, !fb, lr, !lr, j, m⟩ =
      ⟨if lr then -1 else 1, 0, if fb then -1 else 1⟩ := by
  cases fb <;> cases lr <;> simp [rawDirection]

/-- C8 (confirmed): for every combination of two orthogonal movement
intents active simultaneously (exactly one of forward/backward and exactly
one of left/right), every yaw and every prior velocity, the horizontal
speed of the velocity command equals MOVE_SPEED exactly, not MOVE_SPEED
times the square root of 2: the diagonal raw direction has length above 1
and is renormalized to unit length before scaling. -/
theorem C8_diagonal_normalization (yaw : ℝ) (fb lr grounded jump : Bool)
    (mouseX : ℝ) (vel : Vec3) :
    horizontalSpeed
      (applyMovement (calculateMovementDirection yaw ⟨fb, !fb, lr, !lr, jump, mouseX⟩)
        grounded ⟨fb, !fb, lr, !lr, jump, mouseX⟩ vel) = MOVE_SPEED := by
  have hx2 : (if lr then (-1 : ℝ) else 1) ^ 2 = 1 := by cases lr <;> norm_num
  have hz2 : (if fb then (-1 : ℝ) else 1) ^ 2 = 1 := by cases fb <;> norm_num
  simp only [calculateMovementDirection, rawDirection_diag,
    if_pos (diag_length_gt_one _ _ hx2 hz2)]
  apply horizontalSpeed_applyMovement
  rw [applyEulerY_sumsq]
  exact normalize_diag_sumsq _ _ hx2 hz2

/-- C9 (confirmed): with all four movement intents inactive the horizontal
components of the velocity command are exactly zero for every yaw and every
prior velocity (the zero raw direction is left as is and rotates to the
zero vector), and for every direction the horizontal components of the
command are direction times MOVE_SPEED, fully replacing the previous
horizontal velocity rather than accumulating onto it. -/
theorem C9_zero_direction_replacement (yaw : ℝ) (vel dir : Vec3) (grounded : Bool)
    (i : InputState) :
    (i.forward = false → i.backward = false → i.left = false → i.right = false →
      (applyMovement (calculateMovementDirection yaw i) grounded i vel).x = 0 ∧
      (applyMovement (calculateMovementDirection yaw i) grounded i vel).z = 0) ∧
    ((applyMovement dir grounded i vel).x = dir.x * MOVE_SPEED ∧
     (applyMovement dir grounded i vel).z = dir.z * MOVE_SPEED) := by
  constructor
  · intro hf hb hl hr
    have hraw : rawDirection i = ⟨0, 0, 0⟩ := by
      rcases i with ⟨f, b, l, r, j, m⟩
      simp only at hf hb hl hr
      subst hf; subst hb; subst hl; subst hr
      simp [rawDirection]
    have hlen : (Vec3.mk 0 0 0).length = 0 := by
      simp [Vec3.length]
    have hdir : calculateMovementDirection yaw i = ⟨0, 0, 0⟩ := by
      simp only [calculateMovementDirection, hraw, hlen]
      rw [if_neg (by norm_num : ¬ (1 : ℝ) < 0)]
      simp [applyEulerY]
    rw [hdir]
    constructor <;> simp [applyMovement, apply_ite Vec3.x, apply_ite Vec3.z]
  · constructor <;> simp [applyMovement, apply_ite Vec3.x, apply_ite Vec3.z]

end Controller3D
